import Mathlib

/-!
Verification model of the node-mailer form-to-email service
(src/index.js and the unnamed variant src/unnamed/part_000).

The JavaScript handlers are embedded as pure Lean functions.  Stateful
behaviour (files persisted by the upload middleware, SMTP send attempts,
temp-file deletion) is modelled as an explicit event trace produced by
each handler, and the SMTP environment (whether the primary and the
fallback transport would fail, the generated unique filename suffixes,
which deletions would fail) is passed in as an explicit record.
-/

/-- The whitespace class of a JavaScript regular expression, the set
matched by the backslash-s escape. -/
def jsWhitespace (c : Char) : Bool :=
  c = ' ' || c = '\t' || c = '\n' || c = '\r' ||
  c = Char.ofNat 0x0b || c = Char.ofNat 0x0c ||
  c = Char.ofNat 0xa0 || c = Char.ofNat 0x1680 ||
  (0x2000 ≤ c.toNat && c.toNat ≤ 0x200a) ||
  c = Char.ofNat 0x2028 || c = Char.ofNat 0x2029 ||
  c = Char.ofNat 0x202f || c = Char.ofNat 0x205f ||
  c = Char.ofNat 0x3000 || c = Char.ofNat 0xfeff

/-- A character admitted by the bracket class of the email regex in
src/index.js line 96: anything that is neither whitespace nor an at sign. -/
def okChar (c : Char) : Bool := !(c = '@') && !(jsWhitespace c)

/-- Core of `validateEmail` (src/index.js lines 95-98), the anchored regex
matching nonempty at-free-nonspace, at sign, nonempty at-free-nonspace,
dot, nonempty at-free-nonspace.  Because the bracket class excludes the
at sign, a matching string contains exactly one at sign, so the match can
be decided by splitting at the first at sign: the part before it must be
nonempty and in the class, the part after it must be in the class and
contain a dot that is neither its first nor its last character. -/
def emailCore (l : List Char) : Bool :=
  let a := l.takeWhile (fun c => !(c = '@'))
  let r := l.dropWhile (fun c => !(c = '@'))
  !r.isEmpty && !a.isEmpty && a.all okChar &&
    (r.drop 1).all okChar &&
    ((r.drop 1).drop 1).dropLast.any (fun c => c = '.')

/-- `validateEmail` from src/index.js lines 95-98. -/
def validateEmail (s : String) : Bool := emailCore s.data

/-- Direct semantics of the email regex: some split of the string into the
five regex pieces.  Used to validate the executable translation. -/
def matchesEmailPattern (l : List Char) : Prop :=
  ∃ a b c : List Char,
    l = a ++ '@' :: (b ++ '.' :: c) ∧ a ≠ [] ∧ b ≠ [] ∧ c ≠ [] ∧
    (∀ x ∈ a, okChar x = true) ∧ (∀ x ∈ b, okChar x = true) ∧
    (∀ x ∈ c, okChar x = true)

/-- A character of the phone regex bracket class in src/index.js line 103:
an ASCII digit, a regex whitespace character, or a hyphen. -/
def phoneChar (c : Char) : Bool := c.isDigit || jsWhitespace c || c = '-'

/-- Strips the optional leading plus consumed by the phone regex.  The
plus is not a member of the bracket class, so the optional quantifier
consumes a leading plus exactly when one is present. -/
def phoneBody : List Char → List Char
  | c :: rest => if c = '+' then rest else c :: rest
  | [] => []

/-- Core of the phone regex: optional leading plus, then 8 to 15
characters of the bracket class. -/
def phoneCore (l : List Char) : Bool :=
  let body := phoneBody l
  body.all phoneChar && decide (8 ≤ body.length) && decide (body.length ≤ 15)

/-- `validatePhone` from src/index.js lines 100-105: an absent or empty
value is valid, otherwise the regex must match. -/
def validatePhone (p : Option String) : Bool :=
  match p with
  | none => true
  | some s => if s = "" then true else phoneCore s.data

/-- The phone pattern exactly as the claim words it: an optional leading
plus followed by 8 to 15 characters drawn only from digits, the space
character and hyphens. -/
def claimPhoneChar (c : Char) : Bool := c.isDigit || c = ' ' || c = '-'

/-- Decidable form of the pattern the claim ascribes to `validatePhone`. -/
def claimPhonePattern (l : List Char) : Bool :=
  let body := phoneBody l
  body.all claimPhoneChar && decide (8 ≤ body.length) && decide (body.length ≤ 15)

/-- The phone pattern actually implemented, as a split: an optional
leading plus, then 8 to 15 characters of the implemented bracket class
(digits, regex whitespace, hyphen). -/
def amendedPhonePattern (l : List Char) : Prop :=
  ∃ body : List Char, (l = '+' :: body ∨ l = body) ∧
    (∀ c ∈ body, phoneChar c = true) ∧ 8 ≤ body.length ∧ body.length ≤ 15

/-! ## JavaScript field helpers -/

/-- JavaScript truthiness of an optional string field: `undefined` and the
empty string are falsy, every other string is truthy. -/
def truthy : Option String → Bool
  | none => false
  | some s => if s = "" then false else true

/-- The raw string of an optional field, defaulting to the empty string. -/
def jsGet : Option String → String
  | none => ""
  | some s => s

/-- The JavaScript expression `v || d` on an optional string field. -/
def jsOr (v : Option String) (d : String) : String :=
  match v with
  | none => d
  | some s => if s = "" then d else s

/-- A raw multi-select form value: absent, a single string, or an array of
strings (an HTML multi-select posts one of the latter two). -/
inductive FormValue
  | absent
  | str (s : String)
  | arr (l : List String)
deriving DecidableEq, Repr

/-- The multi-select normalizer of src/unnamed/part_000 lines 141-148 and
341-347: `Array.isArray(v) ? v.join(", ") : v || placeholder`. -/
def normalizeMulti (v : FormValue) (placeholder : String) : String :=
  match v with
  | .arr l => String.intercalate ", " l
  | .str s => if s = "" then placeholder else s
  | .absent => placeholder

/-! ## Message rendering (src/index.js lines 139-165) -/

/-- The destructured fields of the contact form after validation. -/
structure ContactFields where
  Name : String
  Email : String
  Subject : Option String
  Message : Option String
deriving DecidableEq, Repr

/-- One pass of `Message.replace(/\n/g, "<br>")` over a character list. -/
def brList : List Char → List Char
  | [] => []
  | c :: rest =>
      if c = '\n' then '<' :: 'b' :: 'r' :: '>' :: brList rest
      else c :: brList rest

/-- `Message.replace(/\n/g, "<br>")` from src/index.js line 163. -/
def replaceNewlinesBr (s : String) : String := String.mk (brList s.data)

/-- The plain-text template of src/index.js lines 144-154, up to the slot
holding the message. -/
def contactTextPre (f : ContactFields) : String :=
  "\n      New Contact Form Submission\n\n      Personal Details:\n      Name: "
    ++ f.Name ++
  "\n      Email: " ++ f.Email ++
  "\n      Phone: " ++ jsOr f.Subject "Not provided" ++
  "\n\n      Message:\n      "

/-- The full plain-text mail body of src/index.js lines 144-154. -/
def contactText (f : ContactFields) : String :=
  contactTextPre f ++ jsOr f.Message "No message provided." ++ "\n        "

/-- The HTML template of src/index.js lines 155-164, up to the slot
holding the message. -/
def contactHtmlPre (f : ContactFields) : String :=
  "\n          <h2>New Contact Form Submission</h2>\n          <h3>Personal Details:</h3>\n          <p><strong>Name:</strong> "
    ++ f.Name ++
  "</p>\n          <p><strong>Email:</strong> " ++ f.Email ++
  "</p>\n          <p><strong>Phone:</strong> " ++ jsOr f.Subject "Not provided" ++
  "</p>\n          \n          <h3>Message:</h3>\n          <p>"

/-- The message slot of the HTML body, src/index.js line 163:
`Message ? Message.replace(/\n/g, "<br>") : "No message provided."`. -/
def renderMessageHtml (m : Option String) : String :=
  match m with
  | none => "No message provided."
  | some s => if s = "" then "No message provided." else replaceNewlinesBr s

/-- The full HTML mail body of src/index.js lines 155-164. -/
def contactHtml (f : ContactFields) : String :=
  contactHtmlPre f ++ renderMessageHtml f.Message ++ "</p>\n        "

/-! ## Upload middleware (multer configuration, src/index.js lines 19-53) -/

/-- An upload as the HTTP layer hands it to the middleware. -/
structure UploadedFile where
  originalname : String
  size : Nat
deriving DecidableEq, Repr

/-- `path.extname`: the suffix of the name starting at its last dot,
empty when there is no dot or the only dot is the leading character. -/
def extname (s : String) : String :=
  let l := s.data
  let tail := l.reverse.takeWhile (fun c => !(c = '.'))
  if tail.length + 1 < l.length then String.mk ('.' :: tail.reverse) else ""

/-- `toLowerCase` as applied to an extension: ASCII lowercasing
character by character (extensions are ASCII). -/
def lowerStr (s : String) : String := String.mk (s.data.map Char.toLower)

/-- The extension allow-list of src/index.js line 39. -/
def allowedTypes : List String := [".jpg", ".jpeg", ".png", ".pdf", ".doc", ".docx"]

/-- The multer `fileFilter` of src/index.js lines 37-47: the lowercased
extension must be on the allow-list.  It runs before the file is stored. -/
def fileFilterOk (name : String) : Bool :=
  allowedTypes.contains (lowerStr (extname name))

/-- The multer `fileSize` limit of src/index.js line 51. -/
def maxFileSize : Nat := 10 * 1024 * 1024

/-! ## Event traces and the SMTP environment -/

/-- One observable side effect of a handler run. -/
inductive Event
  | fileWrite (path : String)
  | sendAttempt (usedFallback : Bool)
  | unlink (path : String)
  | logError (path : String)
deriving DecidableEq, Repr

/-- The HTTP responses the handlers produce. -/
inductive Response
  | okJson (message : String)
  | badRequest (message : String)
  | serverError (message : String)
  | redirect (location : String)
deriving DecidableEq, Repr

/-- The environment a request runs in: whether each transport would fail,
the unique suffix `Date.now() + "-" + random` generated for the i-th
stored file, and which paths `fs.unlink` would fail on. -/
structure SmtpEnv where
  primaryFails : Bool
  fallbackFails : Bool
  uniqueSuffix : Nat → String
  unlinkFails : String → Bool

/-- Result of the send stage, src/index.js lines 176-199: `emailSent` and
`lastError` are the mutable locals of the source; `usedFallback` records
whether the success came from the fallback attempt; `lastError = some b`
means the captured error came from the fallback attempt when `b` and from
the primary attempt otherwise. -/
structure SendResult where
  emailSent : Bool
  usedFallback : Bool
  lastError : Option Bool
  events : List Event
deriving DecidableEq, Repr

/-- The try/catch/try/catch send block shared by all form handlers
(src/index.js lines 176-199 and 371-390): try the primary transport, and
only on its failure try the fallback transport, once. -/
def sendWithFallback (env : SmtpEnv) : SendResult :=
  if env.primaryFails then
    if env.fallbackFails then
      { emailSent := false, usedFallback := false, lastError := some true,
        events := [.sendAttempt false, .sendAttempt true] }
    else
      { emailSent := true, usedFallback := true, lastError := some false,
        events := [.sendAttempt false, .sendAttempt true] }
  else
    { emailSent := true, usedFallback := false, lastError := none,
      events := [.sendAttempt false] }

/-- The cleanup block (src/index.js lines 201-206 and 392-399): one
fire-and-forget `fs.unlink` per stored path; a failing deletion only logs
and is never retried. -/
def cleanupEvents (env : SmtpEnv) : List String → List Event
  | [] => []
  | p :: rest =>
      Event.unlink p ::
        ((if env.unlinkFails p then [Event.logError p] else []) ++
          cleanupEvents env rest)

/-- The path multer stores an upload under (src/index.js lines 20-35):
the uploads directory, the field name, the unique suffix for the i-th
file, and the original extension. -/
def storedPath (env : SmtpEnv) (i : Nat) (fieldname originalname : String) : String :=
  "uploads/" ++ fieldname ++ "-" ++ env.uniqueSuffix i ++ extname originalname

/-! ## Route handlers -/

/-- The body fields of POST /submit-contact-form plus its optional single
upload (src/index.js lines 108-112). -/
structure ContactReq where
  Name : Option String
  Email : Option String
  Subject : Option String
  Message : Option String
  file : Option UploadedFile

/-- The body fields of POST /submit-quote-form plus its uploads
(src/index.js lines 271-279). -/
structure QuoteReq where
  name : Option String
  email : Option String
  phone : Option String
  city : Option String
  address : Option String
  propertyType : Option String
  projectType : Option String
  serviceType : Option String
  windowsType : Option String
  doorsType : Option String
  colorPreference : Option String
  numWindows : Option String
  estimatedBudget : Option String
  contactMethod : Option String
  bestTime : Option String
  additionalComments : Option String
  files : List UploadedFile

/-- The body of POST /subscribe (src/index.js line 234). -/
structure SubscribeReq where
  email : Option String

/-- The JSON body of POST /submit-form/multipart
(src/unnamed/part_000 lines 283-289). -/
structure MultipartReq where
  name : Option String
  email : Option String
  phone : Option String
  city : Option String
  address : Option String
  propertyType : Option String
  projectType : Option String
  numWindows : Option String
  budget : Option String
  comments : Option String
  contactMethod : Option String
  windowType : FormValue
  glazing : FormValue
  fileData : Option String
  fileName : Option String
  fileType : Option String

/-- The handler body of POST /submit-contact-form (src/index.js lines
109-229), entered after the upload middleware; `paths` is the list of
paths the middleware has already persisted (empty or a singleton).  The
mail bodies it builds are `contactText` and `contactHtml`. -/
def contactHandler (env : SmtpEnv) (req : ContactReq) (paths : List String) :
    Response × List Event :=
  let writes := paths.map Event.fileWrite
  if !truthy req.Name || !truthy req.Email then
    (.badRequest "Name and email are required fields.", writes)
  else if !validateEmail (jsGet req.Email) then
    (.badRequest "Please provide a valid email address.", writes)
  else if truthy req.Subject && !validatePhone req.Subject then
    (.badRequest "Please provide a valid phone number.", writes)
  else
    let send := sendWithFallback env
    ((if send.emailSent then .redirect "/thank-you.html" else .redirect "/error.html"),
      writes ++ send.events ++ cleanupEvents env paths)

/-- POST /submit-contact-form (src/index.js line 108): the
`upload.single` middleware stores an acceptable upload before the handler
body runs; a filter or size rejection aborts the request before anything
is stored (multer removes incomplete stores, so nothing persists). -/
def submitContactForm (env : SmtpEnv) (req : ContactReq) : Response × List Event :=
  match req.file with
  | some f =>
      if !fileFilterOk f.originalname then
        (.serverError "Invalid file type. Only JPG, PNG, PDF, and DOC files are allowed.", [])
      else if maxFileSize < f.size then
        (.serverError "File too large", [])
      else contactHandler env req [storedPath env 0 "file" f.originalname]
  | none => contactHandler env req []

/-- POST /subscribe (src/index.js lines 233-261): validation, then a
single attempt on the primary transport with no fallback. -/
def subscribe (env : SmtpEnv) (req : SubscribeReq) : Response × List Event :=
  if !truthy req.email || !validateEmail (jsGet req.email) then
    (.badRequest "Please provide a valid email address.", [])
  else if env.primaryFails then
    (.redirect "/error.html", [.sendAttempt false])
  else
    (.redirect "/thank-you.html", [.sendAttempt false])

/-- The paths `upload.array` stores a list of uploads under, in order. -/
def quotePaths (env : SmtpEnv) : Nat → List UploadedFile → List String
  | _, [] => []
  | i, f :: rest => storedPath env i "fileUpload" f.originalname :: quotePaths env (i + 1) rest

/-- The handler body of POST /submit-quote-form (src/index.js lines
271-415), entered after the upload middleware stored `paths`. -/
def quoteHandler (env : SmtpEnv) (req : QuoteReq) (paths : List String) :
    Response × List Event :=
  let writes := paths.map Event.fileWrite
  if !truthy req.name || !truthy req.email || !truthy req.phone then
    (.badRequest "Name, email, and phone are required fields.", writes)
  else if !validateEmail (jsGet req.email) then
    (.badRequest "Please provide a valid email address.", writes)
  else
    let send := sendWithFallback env
    ((if send.emailSent then .redirect "/thank-you.html" else .redirect "/error.html"),
      writes ++ send.events ++ cleanupEvents env paths)

/-- POST /submit-quote-form (src/index.js lines 268-270): the
`upload.array("fileUpload", 5)` middleware accepts at most 5 files, each
subject to the filter and the size limit; any rejection aborts the
request and multer removes whatever it had stored, so nothing persists. -/
def submitQuoteForm (env : SmtpEnv) (req : QuoteReq) : Response × List Event :=
  if 5 < req.files.length then
    (.serverError "Unexpected field", [])
  else if req.files.any (fun f => !fileFilterOk f.originalname) then
    (.serverError "Invalid file type. Only JPG, PNG, PDF, and DOC files are allowed.", [])
  else if req.files.any (fun f => decide (maxFileSize < f.size)) then
    (.serverError "File too large", [])
  else quoteHandler env req (quotePaths env 0 req.files)

/-- POST /submit-form/multipart (src/unnamed/part_000 lines 281-467):
field validation, then the inline base64 upload path: the extension of
`fileName` is checked against the allow-list and the decoded payload is
written to the uploads directory with no size check of any kind; the
multi-select fields are normalized by `normalizeMulti` into the mail
body; after the send attempts the stored file is unlinked. -/
def submitMultipart (env : SmtpEnv) (req : MultipartReq) : Response × List Event :=
  if !truthy req.name || !truthy req.email then
    (.badRequest "Name and email are required fields.", [])
  else if !validateEmail (jsGet req.email) then
    (.badRequest "Please provide a valid email address.", [])
  else if truthy req.fileData && truthy req.fileName &&
      !allowedTypes.contains (lowerStr (extname (jsGet req.fileName))) then
    (.badRequest "Invalid file type. Only JPG, PNG, PDF, and DOC files are allowed.", [])
  else
    let paths : List String :=
      if truthy req.fileData && truthy req.fileName then
        ["uploads/file-" ++ env.uniqueSuffix 0 ++ lowerStr (extname (jsGet req.fileName))]
      else []
    let send := sendWithFallback env
    ((if send.emailSent then
        .okJson "Thank you for your request. We will get back to you shortly!"
      else
        .serverError "We encountered an issue sending your request. Please try again or contact us directly."),
      paths.map Event.fileWrite ++ send.events ++ cleanupEvents env paths)

/-- Length in bytes of `Buffer.from(data, "base64")` for an unpadded
base64 string; the handler itself never computes or bounds this size. -/
def base64DecodedLength (s : String) : Nat := s.length / 4 * 3

/-! ## Stage predicates used as hypotheses -/

/-- The upload middleware of /submit-contact-form accepts the request. -/
def contactMulterOk (req : ContactReq) : Bool :=
  match req.file with
  | none => true
  | some f => fileFilterOk f.originalname && decide (f.size ≤ maxFileSize)

/-- The field validation of /submit-contact-form passes. -/
def contactValid (req : ContactReq) : Bool :=
  truthy req.Name && truthy req.Email && validateEmail (jsGet req.Email) &&
    !(truthy req.Subject && !validatePhone req.Subject)

/-- The upload middleware of /submit-quote-form accepts the request. -/
def quoteMulterOk (req : QuoteReq) : Bool :=
  decide (req.files.length ≤ 5) &&
    req.files.all (fun f => fileFilterOk f.originalname && decide (f.size ≤ maxFileSize))

/-- The field validation of /submit-quote-form passes. -/
def quoteValid (req : QuoteReq) : Bool :=
  truthy req.name && truthy req.email && truthy req.phone &&
    validateEmail (jsGet req.email)

/-- Whether an event is a send attempt. -/
def isSend : Event → Bool
  | .sendAttempt _ => true
  | _ => false

/-- Whether an event is a temp-file deletion. -/
def isUnlink : Event → Bool
  | .unlink _ => true
  | _ => false

/-! ## Helper lemmas -/

theorem truthy_some_of_ne {s : String} (h : s ≠ "") : truthy (some s) = true := by
  simp [truthy, h]

theorem ne_empty_of_truthy {s : String} (h : truthy (some s) = true) : s ≠ "" := by
  intro he
  simp [truthy, he] at h

theorem mk_data (s : String) : String.mk s.data = s := by
  cases s
  rfl

theorem brList_no_newline (l : List Char) : '\n' ∉ brList l := by
  induction l with
  | nil => simp [brList]
  | cons c rest ih =>
      by_cases h : c = '\n'
      · simp only [brList, if_pos h]
        intro hmem
        rcases List.mem_cons.mp hmem with h1 | hmem
        · exact absurd h1 (by decide)
        rcases List.mem_cons.mp hmem with h1 | hmem
        · exact absurd h1 (by decide)
        rcases List.mem_cons.mp hmem with h1 | hmem
        · exact absurd h1 (by decide)
        rcases List.mem_cons.mp hmem with h1 | hmem
        · exact absurd h1 (by decide)
        exact ih hmem
      · simp only [brList, if_neg h]
        intro hmem
        rcases List.mem_cons.mp hmem with h1 | hmem
        · exact h h1.symm
        · exact ih hmem

theorem brList_of_no_newline {l : List Char} (h : '\n' ∉ l) : brList l = l := by
  induction l with
  | nil => rfl
  | cons c rest ih =>
      have hc : ¬(c = '\n') := fun he => h (he ▸ List.mem_cons_self c rest)
      have hr : '\n' ∉ rest := fun he => h (List.mem_cons_of_mem c he)
      simp [brList, hc, ih hr]

theorem replaceNewlinesBr_no_newline (s : String) : '\n' ∉ (replaceNewlinesBr s).data := by
  show '\n' ∉ brList s.data
  exact brList_no_newline s.data

theorem replaceNewlinesBr_of_no_newline {s : String} (h : '\n' ∉ s.data) :
    replaceNewlinesBr s = s := by
  unfold replaceNewlinesBr
  rw [brList_of_no_newline h, mk_data]

theorem takeWhile_all_append {α : Type} (p : α → Bool) (a : List α) (b : α) (r : List α)
    (ha : ∀ x ∈ a, p x = true) (hb : p b = false) :
    (a ++ b :: r).takeWhile p = a ∧ (a ++ b :: r).dropWhile p = b :: r := by
  induction a with
  | nil => simp [List.takeWhile_cons, List.dropWhile_cons, hb]
  | cons x xs ih =>
      have hx : p x = true := ha x (List.mem_cons_self x xs)
      have hxs : ∀ y ∈ xs, p y = true := fun y hy => ha y (List.mem_cons_of_mem x hy)
      obtain ⟨h1, h2⟩ := ih hxs
      simp [List.takeWhile_cons, List.dropWhile_cons, hx, h1, h2]

theorem dropWhile_head_false {α : Type} (p : α → Bool) (l : List α) (x : α) (xs : List α)
    (h : l.dropWhile p = x :: xs) : p x = false := by
  induction l generalizing x xs with
  | nil => simp at h
  | cons a as ih =>
      by_cases hp : p a = true
      · rw [List.dropWhile_cons, if_pos hp] at h
        exact ih x xs h
      · rw [List.dropWhile_cons, if_neg hp] at h
        cases h
        exact Bool.eq_false_iff.mpr hp

theorem emailCore_iff (l : List Char) : emailCore l = true ↔ matchesEmailPattern l := by
  constructor
  · intro h
    simp only [emailCore, Bool.and_eq_true] at h
    obtain ⟨⟨⟨⟨hr, ha⟩, hallA⟩, hallR⟩, hdot⟩ := h
    set p : Char → Bool := fun c => !(c = '@') with hp
    obtain ⟨x, rest, hxr⟩ : ∃ x rest, l.dropWhile p = x :: rest := by
      rcases he : l.dropWhile p with _ | ⟨x, rest⟩
      · rw [he] at hr
        simp at hr
      · exact ⟨x, rest, rfl⟩
    have hx : x = '@' := by
      have := dropWhile_head_false p l x rest hxr
      simpa [hp] using this
    subst hx
    rw [hxr] at hallR hdot
    simp only [List.drop_one, List.tail_cons] at hallR hdot
    obtain ⟨y, hymem, hy⟩ := List.any_eq_true.mp hdot
    have hy' : y = '.' := of_decide_eq_true hy
    subst hy'
    obtain ⟨z, rest', hz⟩ : ∃ z rest', rest = z :: rest' := by
      rcases rest with _ | ⟨z, rest'⟩
      · simp at hymem
      · exact ⟨z, rest', rfl⟩
    subst hz
    simp only [List.tail_cons] at hymem
    have hrest' : rest' ≠ [] := by
      rintro rfl
      simp at hymem
    obtain ⟨u, v, huv⟩ := List.append_of_mem hymem
    have hsplit : rest' = u ++ '.' :: (v ++ [rest'.getLast hrest']) := by
      conv_lhs => rw [← List.dropLast_append_getLast hrest']
      rw [huv]
      simp
    refine ⟨l.takeWhile p, z :: u, v ++ [rest'.getLast hrest'], ?_, ?_, by simp, by simp, ?_, ?_, ?_⟩
    · conv_lhs => rw [← List.takeWhile_append_dropWhile p l]
      rw [hxr]
      simp only [List.cons_append, List.append_assoc]
      exact congrArg (fun w => List.takeWhile p l ++ '@' :: z :: w) hsplit
    · intro he
      rw [he] at ha
      simp at ha
    · exact fun w hw => List.all_eq_true.mp hallA w hw
    · intro w hw
      apply List.all_eq_true.mp hallR w
      rcases List.mem_cons.mp hw with h1 | h1
      · exact h1 ▸ List.mem_cons_self z rest'
      · apply List.mem_cons_of_mem
        rw [hsplit]
        exact List.mem_append_left _ h1
    · intro w hw
      apply List.all_eq_true.mp hallR w
      apply List.mem_cons_of_mem
      rw [hsplit]
      rcases List.mem_append.mp hw with h1 | h1
      · refine List.mem_append_right _ ?_
        exact List.mem_cons_of_mem _ (List.mem_append_left _ h1)
      · refine List.mem_append_right _ ?_
        exact List.mem_cons_of_mem _ (List.mem_append_right _ h1)
  · rintro ⟨a, b, c, hl, ha, hb, hc, hokA, hokB, hokC⟩
    set p : Char → Bool := fun ch => !(ch = '@') with hp
    have hpa : ∀ x ∈ a, p x = true := by
      intro x hx
      have := hokA x hx
      simp only [okChar, Bool.and_eq_true] at this
      simp [hp, this.1]
    obtain ⟨ht, hd⟩ := takeWhile_all_append p a '@' (b ++ '.' :: c) hpa (by simp [hp])
    obtain ⟨b0, tb, rfl⟩ : ∃ b0 tb, b = b0 :: tb := by
      rcases b with _ | ⟨b0, tb⟩
      · exact absurd rfl hb
      · exact ⟨b0, tb, rfl⟩
    obtain ⟨c0, tc, rfl⟩ : ∃ c0 tc, c = c0 :: tc := by
      rcases c with _ | ⟨c0, tc⟩
      · exact absurd rfl hc
      · exact ⟨c0, tc, rfl⟩
    simp only [emailCore]
    rw [hl, ht, hd]
    simp only [Bool.and_eq_true]
    refine ⟨⟨⟨⟨by simp, by simp [List.isEmpty_iff, ha]⟩, List.all_eq_true.mpr hokA⟩, ?_⟩, ?_⟩
    · simp only [List.drop_one, List.tail_cons]
      apply List.all_eq_true.mpr
      intro w hw
      rcases List.mem_cons.mp hw with h1 | h1
      · exact h1 ▸ hokB b0 (List.mem_cons_self b0 tb)
      · rcases List.mem_append.mp h1 with h2 | h2
        · exact hokB w (List.mem_cons_of_mem _ h2)
        · rcases List.mem_cons.mp h2 with h3 | h3
          · subst h3
            decide
          · exact hokC w h3
    · simp only [List.drop_one, List.cons_append, List.tail_cons]
      apply List.any_eq_true.mpr
      refine ⟨'.', ?_, by decide⟩
      rw [List.dropLast_append_cons]
      refine List.mem_append_right _ ?_
      simp [List.dropLast]

theorem send_events_eq (env : SmtpEnv) :
    (sendWithFallback env).events =
      if env.primaryFails then [Event.sendAttempt false, Event.sendAttempt true]
      else [Event.sendAttempt false] := by
  cases h1 : env.primaryFails <;> cases h2 : env.fallbackFails <;>
    simp [sendWithFallback, h1, h2]

theorem send_emailSent_eq (env : SmtpEnv) :
    (sendWithFallback env).emailSent = (!env.primaryFails || !env.fallbackFails) := by
  cases h1 : env.primaryFails <;> cases h2 : env.fallbackFails <;>
    simp [sendWithFallback, h1, h2]

theorem send_usedFallback_eq (env : SmtpEnv) :
    (sendWithFallback env).usedFallback = (env.primaryFails && !env.fallbackFails) := by
  cases h1 : env.primaryFails <;> cases h2 : env.fallbackFails <;>
    simp [sendWithFallback, h1, h2]

theorem send_lastError_eq (env : SmtpEnv) :
    (sendWithFallback env).lastError =
      if env.primaryFails then some env.fallbackFails else none := by
  cases h1 : env.primaryFails <;> cases h2 : env.fallbackFails <;>
    simp [sendWithFallback, h1, h2]

theorem send_events_filter_isSend (env : SmtpEnv) :
    (sendWithFallback env).events.filter isSend = (sendWithFallback env).events := by
  cases h1 : env.primaryFails <;> cases h2 : env.fallbackFails <;>
    simp [sendWithFallback, h1, h2, isSend, List.filter]

theorem send_events_filter_isUnlink (env : SmtpEnv) :
    (sendWithFallback env).events.filter isUnlink = [] := by
  cases h1 : env.primaryFails <;> cases h2 : env.fallbackFails <;>
    simp [sendWithFallback, h1, h2, isUnlink, List.filter]

theorem send_events_count_unlink (env : SmtpEnv) (p : String) :
    (sendWithFallback env).events.count (Event.unlink p) = 0 := by
  cases h1 : env.primaryFails <;> cases h2 : env.fallbackFails <;>
    simp [sendWithFallback, h1, h2, List.count_cons]

theorem cleanup_filter_isSend (env : SmtpEnv) (ps : List String) :
    (cleanupEvents env ps).filter isSend = [] := by
  induction ps with
  | nil => simp [cleanupEvents]
  | cons p rest ih =>
      by_cases hf : env.unlinkFails p <;>
        simp [cleanupEvents, hf, List.filter_append, isSend, List.filter, ih]

theorem cleanup_filter_isUnlink (env : SmtpEnv) (ps : List String) :
    (cleanupEvents env ps).filter isUnlink = ps.map Event.unlink := by
  induction ps with
  | nil => simp [cleanupEvents]
  | cons p rest ih =>
      by_cases hf : env.unlinkFails p <;>
        simp [cleanupEvents, hf, List.filter_append, isUnlink, List.filter, ih]

theorem cleanup_count_unlink (env : SmtpEnv) (ps : List String) (p : String) :
    (cleanupEvents env ps).count (Event.unlink p) = ps.count p := by
  induction ps with
  | nil => simp [cleanupEvents]
  | cons q rest ih =>
      by_cases hf : env.unlinkFails q <;>
        simp [cleanupEvents, hf, List.count_cons, List.count_append, ih, beq_iff_eq]

theorem cleanup_no_send (env : SmtpEnv) (ps : List String) (b : Bool) :
    Event.sendAttempt b ∉ cleanupEvents env ps := by
  induction ps with
  | nil => simp [cleanupEvents]
  | cons q rest ih =>
      by_cases hf : env.unlinkFails q <;> simp [cleanupEvents, hf, ih]

theorem writes_filter_isSend (ps : List String) :
    (ps.map Event.fileWrite).filter isSend = [] := by
  induction ps with
  | nil => rfl
  | cons p rest ih => simp [List.filter, isSend, ih]

theorem writes_filter_isUnlink (ps : List String) :
    (ps.map Event.fileWrite).filter isUnlink = [] := by
  induction ps with
  | nil => rfl
  | cons p rest ih => simp [List.filter, isUnlink, ih]

theorem writes_count_unlink (ps : List String) (p : String) :
    (ps.map Event.fileWrite).count (Event.unlink p) = 0 := by
  rw [List.count_eq_zero]
  simp [List.mem_map]

theorem writes_no_send (ps : List String) (b : Bool) :
    Event.sendAttempt b ∉ ps.map Event.fileWrite := by
  simp [List.mem_map]

/-- The paths the upload middleware of /submit-contact-form persists. -/
def contactPaths (env : SmtpEnv) (req : ContactReq) : List String :=
  match req.file with
  | some f => [storedPath env 0 "file" f.originalname]
  | none => []

theorem contactValid_parts {req : ContactReq} (hv : contactValid req = true) :
    truthy req.Name = true ∧ truthy req.Email = true ∧
      validateEmail (jsGet req.Email) = true ∧
      (truthy req.Subject && !validatePhone req.Subject) = false := by
  simp only [contactValid, Bool.and_eq_true] at hv
  refine ⟨hv.1.1.1, hv.1.1.2, hv.1.2, ?_⟩
  cases hb : (truthy req.Subject && !validatePhone req.Subject)
  · rfl
  · rw [hb] at hv
    simp at hv

theorem contactHandler_sendStage (env : SmtpEnv) (req : ContactReq) (paths : List String)
    (hv : contactValid req = true) :
    contactHandler env req paths =
      ((if (sendWithFallback env).emailSent then Response.redirect "/thank-you.html"
        else Response.redirect "/error.html"),
       paths.map Event.fileWrite ++ (sendWithFallback env).events ++ cleanupEvents env paths) := by
  obtain ⟨h1, h2, h3, h4⟩ := contactValid_parts hv
  simp [contactHandler, h1, h2, h3, h4]

theorem contactHandler_missing (env : SmtpEnv) (req : ContactReq) (paths : List String)
    (h : truthy req.Name = false ∨ truthy req.Email = false) :
    contactHandler env req paths =
      (.badRequest "Name and email are required fields.", paths.map Event.fileWrite) := by
  have hc : (!truthy req.Name || !truthy req.Email) = true := by
    rcases h with h | h <;> simp [h]
  simp [contactHandler, hc]

theorem submitContactForm_paths (env : SmtpEnv) (req : ContactReq)
    (hm : contactMulterOk req = true) :
    submitContactForm env req = contactHandler env req (contactPaths env req) := by
  cases hf : req.file with
  | none => simp [submitContactForm, contactPaths, hf]
  | some f =>
      simp only [contactMulterOk, hf, Bool.and_eq_true] at hm
      have hs : ¬(maxFileSize < f.size) := Nat.not_lt.mpr (of_decide_eq_true hm.2)
      simp [submitContactForm, contactPaths, hf, hm.1, hs]

theorem quoteValid_parts {req : QuoteReq} (hv : quoteValid req = true) :
    truthy req.name = true ∧ truthy req.email = true ∧ truthy req.phone = true ∧
      validateEmail (jsGet req.email) = true := by
  simp only [quoteValid, Bool.and_eq_true] at hv
  exact ⟨hv.1.1.1, hv.1.1.2, hv.1.2, hv.2⟩

theorem quoteHandler_sendStage (env : SmtpEnv) (req : QuoteReq) (paths : List String)
    (hv : quoteValid req = true) :
    quoteHandler env req paths =
      ((if (sendWithFallback env).emailSent then Response.redirect "/thank-you.html"
        else Response.redirect "/error.html"),
       paths.map Event.fileWrite ++ (sendWithFallback env).events ++ cleanupEvents env paths) := by
  obtain ⟨h1, h2, h3, h4⟩ := quoteValid_parts hv
  simp [quoteHandler, h1, h2, h3, h4]

theorem quoteHandler_missing (env : SmtpEnv) (req : QuoteReq) (paths : List String)
    (h : truthy req.name = false ∨ truthy req.email = false ∨ truthy req.phone = false) :
    quoteHandler env req paths =
      (.badRequest "Name, email, and phone are required fields.", paths.map Event.fileWrite) := by
  have hc : (!truthy req.name || !truthy req.email || !truthy req.phone) = true := by
    rcases h with h | h | h <;> simp [h]
  simp [quoteHandler, hc]

theorem quoteMulterOk_parts {req : QuoteReq} (hm : quoteMulterOk req = true) :
    req.files.length ≤ 5 ∧
      ∀ f ∈ req.files, fileFilterOk f.originalname = true ∧ f.size ≤ maxFileSize := by
  simp only [quoteMulterOk, Bool.and_eq_true] at hm
  refine ⟨of_decide_eq_true hm.1, fun f hf => ?_⟩
  have := List.all_eq_true.mp hm.2 f hf
  simp only [Bool.and_eq_true] at this
  exact ⟨this.1, of_decide_eq_true this.2⟩

theorem submitQuoteForm_paths (env : SmtpEnv) (req : QuoteReq)
    (hm : quoteMulterOk req = true) :
    submitQuoteForm env req = quoteHandler env req (quotePaths env 0 req.files) := by
  obtain ⟨h5, hall⟩ := quoteMulterOk_parts hm
  have hl : ¬(5 < req.files.length) := Nat.not_lt.mpr h5
  have hft : req.files.any (fun f => !fileFilterOk f.originalname) = false := by
    rw [Bool.eq_false_iff]
    intro hc
    obtain ⟨f, hf, hb⟩ := List.any_eq_true.mp hc
    rw [(hall f hf).1] at hb
    simp at hb
  have hsz : req.files.any (fun f => decide (maxFileSize < f.size)) = false := by
    rw [Bool.eq_false_iff]
    intro hc
    obtain ⟨f, hf, hb⟩ := List.any_eq_true.mp hc
    exact absurd (of_decide_eq_true hb) (Nat.not_lt.mpr (hall f hf).2)
  simp [submitQuoteForm, hl, hft, hsz]

theorem quotePaths_unlinkFails (env : SmtpEnv) (uf : String → Bool) (i : Nat)
    (files : List UploadedFile) :
    quotePaths { env with unlinkFails := uf } i files = quotePaths env i files := by
  induction files generalizing i with
  | nil => rfl
  | cons f rest ih => simp [quotePaths, storedPath, ih]

/-! ## Claim theorems -/

/-- C6: every string matching the email regex pattern is accepted by
`validateEmail`, and every string that has no at sign, or no dot after
an at sign, is rejected. -/
theorem c6_email_pattern (s : String) :
    (matchesEmailPattern s.data → validateEmail s = true) ∧
    ((('@' ∉ s.data) ∨ ∀ x y, s.data = x ++ '@' :: y → '.' ∉ y) →
      validateEmail s = false) := by
  constructor
  · intro h
    exact (emailCore_iff s.data).mpr h
  · intro h
    rw [Bool.eq_false_iff]
    intro htrue
    obtain ⟨a, b, c, hl, ha, hb, hc, hokA, hokB, hokC⟩ := (emailCore_iff s.data).mp htrue
    rcases h with h | h
    · apply h
      rw [hl]
      exact List.mem_append_right _ (List.mem_cons_self _ _)
    · exact h a (b ++ '.' :: c) hl (List.mem_append_right _ (List.mem_cons_self _ _))

/-- Witness for C6 at the two example strings of the claim. -/
theorem c6_witness :
    validateEmail "a@b.co" = true ∧ validateEmail "not-an-email" = false :=
  ⟨(c6_email_pattern "a@b.co").1
      ⟨['a'], ['b'], ['c', 'o'], by decide, by decide, by decide, by decide,
        by decide, by decide, by decide⟩,
   (c6_email_pattern "not-an-email").2 (Or.inl (by decide))⟩

/-- C7 counterexample: a string of eight tab characters is nonempty and is
not of the claimed shape (digits, spaces, hyphens, optional plus), yet
`validatePhone` accepts it, because the regex class is backslash-s, all of
regex whitespace, not just the space character. -/
theorem c7_counterexample :
    validatePhone (some "\t\t\t\t\t\t\t\t") = true ∧
    ("\t\t\t\t\t\t\t\t" : String) ≠ "" ∧
    claimPhonePattern ("\t\t\t\t\t\t\t\t" : String).data = false := by
  decide

/-- C7 as amended: absent and empty are valid, and a nonempty string is
valid exactly when it is an optional leading plus followed by 8 to 15
characters drawn from digits, regex whitespace and hyphens; the two
example strings of the claim behave as stated. -/
theorem c7_amended :
    validatePhone none = true ∧ validatePhone (some "") = true ∧
    (∀ s : String, s ≠ "" → (validatePhone (some s) = true ↔ amendedPhonePattern s.data)) ∧
    validatePhone (some "+1 555-123-4567") = true ∧
    validatePhone (some "abc") = false := by
  refine ⟨rfl, by decide, ?_, by decide, by decide⟩
  intro s hs
  have hv : validatePhone (some s) = phoneCore s.data := by
    simp [validatePhone, hs]
  rw [hv]
  constructor
  · intro h
    simp only [phoneCore, Bool.and_eq_true] at h
    obtain ⟨⟨hall, h8⟩, h15⟩ := h
    refine ⟨phoneBody s.data, ?_, fun c hc => List.all_eq_true.mp hall c hc,
      of_decide_eq_true h8, of_decide_eq_true h15⟩
    rcases hd : s.data with _ | ⟨c, rest⟩
    · exact Or.inr rfl
    · by_cases hc : c = '+'
      · subst hc
        exact Or.inl (by simp [phoneBody])
      · refine Or.inr ?_
        simp [phoneBody, hc]
  · rintro ⟨body, hor, hall, h8, h15⟩
    simp only [phoneCore, Bool.and_eq_true]
    have hbody : phoneBody s.data = body := by
      rcases hor with h | h
      · rw [h]
        simp [phoneBody]
      · rw [h]
        cases body with
        | nil => rfl
        | cons c rest =>
            simp only [phoneBody]
            by_cases hc : c = '+'
            · exfalso
              have := hall c (List.mem_cons_self _ _)
              rw [hc] at this
              exact absurd this (by decide)
            · simp [hc]
    rw [hbody]
    exact ⟨⟨List.all_eq_true.mpr hall, decide_eq_true h8⟩, decide_eq_true h15⟩

/-- Witness for C7 as amended, at a concrete in-pattern string. -/
theorem c7_amended_witness : validatePhone (some "12 34-56 78") = true :=
  (c7_amended.2.2.1 "12 34-56 78" (by decide)).2
    ⟨("12 34-56 78" : String).data, Or.inr rfl, by decide, by decide, by decide⟩

/-- C8 counterexample: an empty single-string value is a string, but the
normalizer substitutes the placeholder for it instead of producing the
string itself, because the empty string is falsy in JavaScript. -/
theorem c8_counterexample :
    normalizeMulti (FormValue.str "") "None selected" = "None selected" ∧
    ("None selected" : String) ≠ "" := by
  decide

/-- C8 as amended: a sequence is joined with comma-space, a nonempty
single string passes through unchanged, and absence or the empty single
string yields the placeholder. -/
theorem c8_amended (p s : String) (l : List String) (hs : s ≠ "") :
    normalizeMulti (FormValue.arr l) p = String.intercalate ", " l ∧
    normalizeMulti (FormValue.str s) p = s ∧
    normalizeMulti FormValue.absent p = p ∧
    normalizeMulti (FormValue.arr ["A", "B"]) p = "A, B" ∧
    normalizeMulti (FormValue.str "A") p = "A" := by
  refine ⟨rfl, ?_, rfl, rfl, rfl⟩
  simp [normalizeMulti, hs]

/-- Witness for C8 as amended at concrete inputs. -/
theorem c8_amended_witness :
    normalizeMulti (FormValue.str "xyz") "None selected" = "xyz" :=
  (c8_amended "None selected" "xyz" ["a"] (by decide)).2.1

/-- C9: in the contact-form mail, the plain-text body embeds the message
verbatim (raw newlines preserved), the HTML body embeds it with every
newline replaced by a br tag (the result has no newline left), and the
replacement touches nothing else: any newline-free string, in particular
any field value with markup characters, passes through unescaped. -/
theorem c9_newlines (f : ContactFields) (m : String) (hm : f.Message = some m)
    (hne : m ≠ "") :
    contactText f = contactTextPre f ++ m ++ "\n        " ∧
    contactHtml f = contactHtmlPre f ++ replaceNewlinesBr m ++ "</p>\n        " ∧
    (∀ s : String, '\n' ∉ (replaceNewlinesBr s).data) ∧
    (∀ s : String, '\n' ∉ s.data → replaceNewlinesBr s = s) := by
  refine ⟨?_, ?_, replaceNewlinesBr_no_newline, fun s h => replaceNewlinesBr_of_no_newline h⟩
  · simp [contactText, jsOr, hm, hne]
  · simp [contactHtml, renderMessageHtml, hm, hne]

/-- A concrete contact submission with a two-line message. -/
def contactFieldsEx : ContactFields :=
  { Name := "Ann", Email := "a@b.co", Subject := some "12345678",
    Message := some "Hello\nWorld" }

/-- Witness for C9 at a concrete two-line message. -/
theorem c9_witness :
    contactHtml contactFieldsEx
      = contactHtmlPre contactFieldsEx ++ replaceNewlinesBr "Hello\nWorld" ++ "</p>\n        " :=
  (c9_newlines contactFieldsEx "Hello\nWorld" rfl (by decide)).2.1

/-- C10: once a contact request passes the name/email checks, a nonempty
Subject value that fails the phone regex makes the handler answer the 400
phone-validation message, with no send attempted: the Subject field is
validated as a phone number. -/
theorem c10_subject_phone (env : SmtpEnv) (req : ContactReq) (s : String)
    (hm : contactMulterOk req = true)
    (hn : truthy req.Name = true) (he : truthy req.Email = true)
    (hev : validateEmail (jsGet req.Email) = true)
    (hs : req.Subject = some s) (hsne : s ≠ "")
    (hp : validatePhone (some s) = false) :
    (submitContactForm env req).1 = .badRequest "Please provide a valid phone number." ∧
    ∀ b, Event.sendAttempt b ∉ (submitContactForm env req).2 := by
  have hts : truthy req.Subject = true := by
    rw [hs]
    exact truthy_some_of_ne hsne
  have hvp : validatePhone req.Subject = false := by
    rw [hs]
    exact hp
  rw [submitContactForm_paths env req hm]
  have hred : contactHandler env req (contactPaths env req) =
      (.badRequest "Please provide a valid phone number.",
        (contactPaths env req).map Event.fileWrite) := by
    simp [contactHandler, hn, he, hev, hts, hvp]
  rw [hred]
  exact ⟨rfl, fun b => writes_no_send _ b⟩

/-- A request environment where both transports would succeed. -/
def env0 : SmtpEnv :=
  { primaryFails := false, fallbackFails := false,
    uniqueSuffix := fun _ => "1700000000000-123456789", unlinkFails := fun _ => false }

/-- A contact request whose Subject is an ordinary textual subject line. -/
def reqSubject : ContactReq :=
  { Name := some "Ann", Email := some "a@b.co", Subject := some "Website inquiry",
    Message := some "Hi", file := none }

/-- Witness for C10: a textual subject line is rejected as an invalid
phone number. -/
theorem c10_witness :
    (submitContactForm env0 reqSubject).1
      = Response.badRequest "Please provide a valid phone number." :=
  (c10_subject_phone env0 reqSubject "Website inquiry" (by decide) (by decide)
      (by decide) (by decide) rfl (by decide) (by decide)).1

/-- A contact request with a file but no Name. -/
def reqC1 : ContactReq :=
  { Name := none, Email := some "a@b.co", Subject := none, Message := none,
    file := some { originalname := "doc.pdf", size := 100 } }

/-- C1 counterexample: a submission missing the name is rejected with the
400 validation message, yet its upload has already been persisted to the
managed upload directory by the middleware, so the rejection is not free
of file-system side effects, and the file is not removed. -/
theorem c1_counterexample :
    (submitContactForm env0 reqC1).1
        = Response.badRequest "Name and email are required fields." ∧
    Event.fileWrite "uploads/file-1700000000000-123456789.pdf"
        ∈ (submitContactForm env0 reqC1).2 ∧
    (∀ p, Event.unlink p ∉ (submitContactForm env0 reqC1).2) := by
  refine ⟨by decide, by decide, ?_⟩
  intro p
  have hred : submitContactForm env0 reqC1 =
      (Response.badRequest "Name and email are required fields.",
        [Event.fileWrite "uploads/file-1700000000000-123456789.pdf"]) := by
    decide
  rw [hred]
  simp

/-- C1 as amended: a submission missing name or email is rejected with
the 400 validation message before any transport attempt (no send event),
and nothing is deleted; but the middleware may already have persisted an
upload, which the rejection path leaves in place. -/
theorem c1_amended (env : SmtpEnv) (req : ContactReq)
    (hm : contactMulterOk req = true)
    (h : truthy req.Name = false ∨ truthy req.Email = false) :
    (submitContactForm env req).1 = .badRequest "Name and email are required fields." ∧
    (∀ b, Event.sendAttempt b ∉ (submitContactForm env req).2) ∧
    (∀ p, Event.unlink p ∉ (submitContactForm env req).2) ∧
    (submitContactForm env req).2 = (contactPaths env req).map Event.fileWrite := by
  rw [submitContactForm_paths env req hm, contactHandler_missing env req _ h]
  refine ⟨rfl, fun b => writes_no_send _ b, fun p => ?_, rfl⟩
  simp [List.mem_map]

/-- Witness for C1 as amended at a concrete rejected submission. -/
theorem c1_amended_witness :
    (submitContactForm env0 reqC1).1
      = Response.badRequest "Name and email are required fields." :=
  (c1_amended env0 reqC1 (by decide) (Or.inl (by decide))).1

/-- An environment where the primary transport fails and the fallback
would succeed. -/
def envPF : SmtpEnv :=
  { primaryFails := true, fallbackFails := false,
    uniqueSuffix := fun _ => "1700000000000-123456789", unlinkFails := fun _ => false }

/-- A valid subscription request. -/
def reqSub : SubscribeReq := { email := some "a@b.co" }

/-- C2 counterexample: on the /subscribe endpoint the primary send fails
while the fallback transport would succeed, yet no fallback attempt is
made and the submission is not delivered — the endpoint has no fallback
tier, contradicting the claim for every email-sending endpoint. -/
theorem c2_counterexample :
    envPF.primaryFails = true ∧ envPF.fallbackFails = false ∧
    (subscribe envPF reqSub).2.count (Event.sendAttempt true) = 0 ∧
    (subscribe envPF reqSub).2.count (Event.sendAttempt false) = 1 ∧
    (subscribe envPF reqSub).1 = Response.redirect "/error.html" := by
  decide

/-- C2 as amended: the form-submission handlers attempt the primary
transport first and exactly once, attempt the fallback exactly once if
and only if the primary fails, and map the outcome as the claim states
(the last error captured when both fail is the fallback error); the
/subscribe endpoint, however, only ever attempts the primary transport
and has no fallback tier. -/
theorem c2_amended (env : SmtpEnv) (creq : ContactReq) (qreq : QuoteReq) (sreq : SubscribeReq)
    (hcm : contactMulterOk creq = true) (hcv : contactValid creq = true)
    (hqm : quoteMulterOk qreq = true) (hqv : quoteValid qreq = true)
    (hs1 : truthy sreq.email = true) (hs2 : validateEmail (jsGet sreq.email) = true) :
    ((submitContactForm env creq).2.filter isSend
        = if env.primaryFails then [Event.sendAttempt false, Event.sendAttempt true]
          else [Event.sendAttempt false]) ∧
    ((submitQuoteForm env qreq).2.filter isSend
        = if env.primaryFails then [Event.sendAttempt false, Event.sendAttempt true]
          else [Event.sendAttempt false]) ∧
    ((sendWithFallback env).emailSent = (!env.primaryFails || !env.fallbackFails)) ∧
    ((sendWithFallback env).usedFallback = (env.primaryFails && !env.fallbackFails)) ∧
    ((sendWithFallback env).lastError
        = if env.primaryFails then some env.fallbackFails else none) ∧
    ((submitContactForm env creq).1
        = if (sendWithFallback env).emailSent then Response.redirect "/thank-you.html"
          else Response.redirect "/error.html") ∧
    ((subscribe env sreq).2 = [Event.sendAttempt false]) ∧
    ((subscribe env sreq).1
        = if env.primaryFails then Response.redirect "/error.html"
          else Response.redirect "/thank-you.html") := by
  have hc := submitContactForm_paths env creq hcm
  have hc2 := contactHandler_sendStage env creq (contactPaths env creq) hcv
  have hq := submitQuoteForm_paths env qreq hqm
  have hq2 := quoteHandler_sendStage env qreq (quotePaths env 0 qreq.files) hqv
  have hsub : (!truthy sreq.email || !validateEmail (jsGet sreq.email)) = false := by
    simp [hs1, hs2]
  refine ⟨?_, ?_, send_emailSent_eq env, send_usedFallback_eq env, send_lastError_eq env,
    ?_, ?_, ?_⟩
  · rw [hc, hc2]
    show ((contactPaths env creq).map Event.fileWrite ++ (sendWithFallback env).events
        ++ cleanupEvents env (contactPaths env creq)).filter isSend = _
    rw [List.filter_append, List.filter_append, writes_filter_isSend,
      send_events_filter_isSend, cleanup_filter_isSend, List.nil_append, List.append_nil]
    exact send_events_eq env
  · rw [hq, hq2]
    show ((quotePaths env 0 qreq.files).map Event.fileWrite ++ (sendWithFallback env).events
        ++ cleanupEvents env (quotePaths env 0 qreq.files)).filter isSend = _
    rw [List.filter_append, List.filter_append, writes_filter_isSend,
      send_events_filter_isSend, cleanup_filter_isSend, List.nil_append, List.append_nil]
    exact send_events_eq env
  · rw [hc, hc2]
  · by_cases hp : env.primaryFails = true <;> simp [subscribe, hsub, hp]
  · by_cases hp : env.primaryFails = true <;> simp [subscribe, hsub, hp]

/-- A valid contact request with no upload. -/
def creqVal : ContactReq :=
  { Name := some "Ann", Email := some "a@b.co", Subject := some "12345678",
    Message := some "Hi", file := none }

/-- A valid quote request with no uploads. -/
def qreqVal : QuoteReq :=
  { name := some "Bob", email := some "a@b.co", phone := some "12345678",
    city := none, address := none, propertyType := none, projectType := none,
    serviceType := some "Windows", windowsType := none, doorsType := none,
    colorPreference := none, numWindows := none, estimatedBudget := none,
    contactMethod := none, bestTime := none, additionalComments := none,
    files := [] }

/-- Witness for C2 as amended: with a healthy primary transport exactly
one primary attempt is made. -/
theorem c2_amended_witness :
    (submitContactForm env0 creqVal).2.filter isSend = [Event.sendAttempt false] :=
  ((c2_amended env0 creqVal qreqVal reqSub (by decide) (by decide) (by decide)
      (by decide) (by decide) (by decide)).1).trans (by decide)

/-- Whether an event is a send attempt or a deletion. -/
def sendOrUnlink (e : Event) : Bool := isSend e || isUnlink e

theorem writes_filter_su (ps : List String) :
    (ps.map Event.fileWrite).filter sendOrUnlink = [] := by
  induction ps with
  | nil => rfl
  | cons p rest ih => simp [List.filter, sendOrUnlink, isSend, isUnlink, ih]

theorem send_filter_su (env : SmtpEnv) :
    (sendWithFallback env).events.filter sendOrUnlink = (sendWithFallback env).events := by
  cases h1 : env.primaryFails <;> cases h2 : env.fallbackFails <;>
    simp [sendWithFallback, h1, h2, sendOrUnlink, isSend, isUnlink, List.filter]

theorem cleanup_filter_su (env : SmtpEnv) (ps : List String) :
    (cleanupEvents env ps).filter sendOrUnlink = ps.map Event.unlink := by
  induction ps with
  | nil => simp [cleanupEvents]
  | cons p rest ih =>
      by_cases hf : env.unlinkFails p <;>
        simp [cleanupEvents, hf, List.filter_append, sendOrUnlink, isSend, isUnlink,
          List.filter, ih]

/-- C3: on both upload-carrying handlers, once the sending stage is
reached every stored temporary file is deleted exactly once, the
send/unlink subsequence of the trace is all send attempts followed by all
deletions (cleanup happens only after the send attempts, on success and
on failure alike), and a deletion failure is invisible to the submitter:
the response is the same whatever set of paths fails to delete. -/
theorem c3_cleanup (env : SmtpEnv) (uf : String → Bool) (qreq : QuoteReq) (creq : ContactReq)
    (hqm : quoteMulterOk qreq = true) (hqv : quoteValid qreq = true)
    (hnd : (quotePaths env 0 qreq.files).Nodup)
    (hcm : contactMulterOk creq = true) (hcv : contactValid creq = true) :
    ((submitQuoteForm env qreq).2.filter isUnlink
        = (quotePaths env 0 qreq.files).map Event.unlink) ∧
    (∀ p ∈ quotePaths env 0 qreq.files,
        (submitQuoteForm env qreq).2.count (Event.unlink p) = 1) ∧
    ((submitQuoteForm env qreq).2.filter sendOrUnlink
        = (sendWithFallback env).events ++ (quotePaths env 0 qreq.files).map Event.unlink) ∧
    ((submitQuoteForm { env with unlinkFails := uf } qreq).1 = (submitQuoteForm env qreq).1) ∧
    ((submitContactForm env creq).2.filter isUnlink
        = (contactPaths env creq).map Event.unlink) ∧
    (∀ p ∈ contactPaths env creq,
        (submitContactForm env creq).2.count (Event.unlink p) = 1) ∧
    ((submitContactForm { env with unlinkFails := uf } creq).1
        = (submitContactForm env creq).1) := by
  have hq := submitQuoteForm_paths env qreq hqm
  have hq2 := quoteHandler_sendStage env qreq (quotePaths env 0 qreq.files) hqv
  have hc := submitContactForm_paths env creq hcm
  have hc2 := contactHandler_sendStage env creq (contactPaths env creq) hcv
  have hqu := submitQuoteForm_paths { env with unlinkFails := uf } qreq hqm
  have hqu2 := quoteHandler_sendStage { env with unlinkFails := uf } qreq
    (quotePaths { env with unlinkFails := uf } 0 qreq.files) hqv
  have hcu := submitContactForm_paths { env with unlinkFails := uf } creq hcm
  have hcu2 := contactHandler_sendStage { env with unlinkFails := uf } creq
    (contactPaths { env with unlinkFails := uf } creq) hcv
  have hcndp : (contactPaths env creq).Nodup := by
    cases hf : creq.file <;> simp [contactPaths, hf]
  refine ⟨?_, ?_, ?_, ?_, ?_, ?_, ?_⟩
  · rw [hq, hq2]
    show ((quotePaths env 0 qreq.files).map Event.fileWrite ++ (sendWithFallback env).events
        ++ cleanupEvents env (quotePaths env 0 qreq.files)).filter isUnlink = _
    rw [List.filter_append, List.filter_append, writes_filter_isUnlink,
      send_events_filter_isUnlink, cleanup_filter_isUnlink, List.nil_append, List.nil_append]
  · intro p hp
    rw [hq, hq2]
    show ((quotePaths env 0 qreq.files).map Event.fileWrite ++ (sendWithFallback env).events
        ++ cleanupEvents env (quotePaths env 0 qreq.files)).count (Event.unlink p) = 1
    rw [List.count_append, List.count_append, writes_count_unlink,
      send_events_count_unlink, cleanup_count_unlink]
    simpa using List.count_eq_one_of_mem hnd hp
  · rw [hq, hq2]
    show ((quotePaths env 0 qreq.files).map Event.fileWrite ++ (sendWithFallback env).events
        ++ cleanupEvents env (quotePaths env 0 qreq.files)).filter sendOrUnlink = _
    rw [List.filter_append, List.filter_append, writes_filter_su, send_filter_su,
      cleanup_filter_su, List.nil_append]
  · rw [hq, hq2, hqu, hqu2]
    rfl
  · rw [hc, hc2]
    show ((contactPaths env creq).map Event.fileWrite ++ (sendWithFallback env).events
        ++ cleanupEvents env (contactPaths env creq)).filter isUnlink = _
    rw [List.filter_append, List.filter_append, writes_filter_isUnlink,
      send_events_filter_isUnlink, cleanup_filter_isUnlink, List.nil_append, List.nil_append]
  · intro p hp
    rw [hc, hc2]
    show ((contactPaths env creq).map Event.fileWrite ++ (sendWithFallback env).events
        ++ cleanupEvents env (contactPaths env creq)).count (Event.unlink p) = 1
    rw [List.count_append, List.count_append, writes_count_unlink,
      send_events_count_unlink, cleanup_count_unlink]
    simpa using List.count_eq_one_of_mem hcndp hp
  · rw [hc, hc2, hcu, hcu2]
    rfl

/-- A quote request with one pdf upload and all required fields present. -/
def qreqFile : QuoteReq :=
  { name := some "Bob", email := some "a@b.co", phone := some "12345678",
    city := none, address := none, propertyType := none, projectType := none,
    serviceType := some "Windows", windowsType := none, doorsType := none,
    colorPreference := none, numWindows := none, estimatedBudget := none,
    contactMethod := none, bestTime := none, additionalComments := none,
    files := [{ originalname := "plan.pdf", size := 2048 }] }

/-- Witness for C3: the single stored upload of a delivered quote
submission is deleted exactly once. -/
theorem c3_cleanup_witness :
    (submitQuoteForm env0 qreqFile).2.count
      (Event.unlink "uploads/fileUpload-1700000000000-123456789.pdf") = 1 :=
  (c3_cleanup env0 (fun _ => false) qreqFile creqVal (by decide) (by decide)
      (by decide) (by decide) (by decide)).2.1
    "uploads/fileUpload-1700000000000-123456789.pdf" (by decide)

/-- A quote request whose name is a single space (whitespace-only). -/
def qreqWs : QuoteReq :=
  { name := some " ", email := some "a@b.co", phone := some "12345678",
    city := none, address := none, propertyType := none, projectType := none,
    serviceType := none, windowsType := none, doorsType := none,
    colorPreference := none, numWindows := none, estimatedBudget := none,
    contactMethod := none, bestTime := none, additionalComments := none,
    files := [] }

/-- C4 counterexample: a whitespace-only name is not rejected by the
required-field validation — the code tests JavaScript truthiness and never
trims, so the submission proceeds all the way to a send attempt, where the
claim demands a 400 rejection. -/
theorem c4_counterexample :
    (submitQuoteForm env0 qreqWs).1
        ≠ Response.badRequest "Name, email, and phone are required fields." ∧
    Event.sendAttempt false ∈ (submitQuoteForm env0 qreqWs).2 := by
  decide

/-- C4 as amended: the required-field validation fails exactly when one of
the required fields is absent or is literally the empty string; no
trimming is performed, so whitespace-only values count as present. -/
theorem c4_amended (env : SmtpEnv) (creq : ContactReq) (qreq : QuoteReq)
    (hcm : contactMulterOk creq = true) (hqm : quoteMulterOk qreq = true) :
    ((submitContactForm env creq).1
        = Response.badRequest "Name and email are required fields."
      ↔ (truthy creq.Name = false ∨ truthy creq.Email = false)) ∧
    ((submitQuoteForm env qreq).1
        = Response.badRequest "Name, email, and phone are required fields."
      ↔ (truthy qreq.name = false ∨ truthy qreq.email = false ∨ truthy qreq.phone = false)) ∧
    truthy (some " ") = true ∧ truthy (some "") = false ∧ truthy none = false := by
  refine ⟨?_, ?_, by decide, by decide, by decide⟩
  · rw [submitContactForm_paths env creq hcm]
    constructor
    · intro hresp
      by_contra hcon
      push_neg at hcon
      have h1 : truthy creq.Name = true := by
        cases hb : truthy creq.Name
        · exact absurd hb hcon.1
        · rfl
      have h2 : truthy creq.Email = true := by
        cases hb : truthy creq.Email
        · exact absurd hb hcon.2
        · rfl
      by_cases h3 : validateEmail (jsGet creq.Email) = true
      · by_cases h4 : (truthy creq.Subject && !validatePhone creq.Subject) = true
        · have hred : contactHandler env creq (contactPaths env creq) =
              (.badRequest "Please provide a valid phone number.",
                (contactPaths env creq).map Event.fileWrite) := by
            simp [contactHandler, h1, h2, h3, h4]
          rw [hred] at hresp
          simp at hresp
        · have h4f : (truthy creq.Subject && !validatePhone creq.Subject) = false :=
            Bool.eq_false_iff.mpr h4
          have hcv : contactValid creq = true := by
            simp [contactValid, h1, h2, h3, h4f]
          rw [contactHandler_sendStage env creq _ hcv] at hresp
          by_cases hse : (sendWithFallback env).emailSent = true <;>
            simp [hse] at hresp
      · have h3f : validateEmail (jsGet creq.Email) = false := Bool.eq_false_iff.mpr h3
        have hred : contactHandler env creq (contactPaths env creq) =
            (.badRequest "Please provide a valid email address.",
              (contactPaths env creq).map Event.fileWrite) := by
          simp [contactHandler, h1, h2, h3f]
        rw [hred] at hresp
        simp at hresp
    · intro h
      rw [contactHandler_missing env creq _ h]
  · rw [submitQuoteForm_paths env qreq hqm]
    constructor
    · intro hresp
      by_contra hcon
      push_neg at hcon
      have h1 : truthy qreq.name = true := by
        cases hb : truthy qreq.name
        · exact absurd hb hcon.1
        · rfl
      have h2 : truthy qreq.email = true := by
        cases hb : truthy qreq.email
        · exact absurd hb hcon.2.1
        · rfl
      have h3 : truthy qreq.phone = true := by
        cases hb : truthy qreq.phone
        · exact absurd hb hcon.2.2
        · rfl
      by_cases h4 : validateEmail (jsGet qreq.email) = true
      · have hqv : quoteValid qreq = true := by
          simp [quoteValid, h1, h2, h3, h4]
        rw [quoteHandler_sendStage env qreq _ hqv] at hresp
        by_cases hse : (sendWithFallback env).emailSent = true <;>
          simp [hse] at hresp
      · have h4f : validateEmail (jsGet qreq.email) = false := Bool.eq_false_iff.mpr h4
        have hred : quoteHandler env qreq (quotePaths env 0 qreq.files) =
            (.badRequest "Please provide a valid email address.",
              (quotePaths env 0 qreq.files).map Event.fileWrite) := by
          simp [quoteHandler, h1, h2, h3, h4f]
        rw [hred] at hresp
        simp at hresp
    · intro h
      rw [quoteHandler_missing env qreq _ h]

/-- Witness for C4 as amended at a concrete missing-phone submission. -/
theorem c4_amended_witness :
    truthy (some " ") = true ∧ truthy (some "") = false :=
  ⟨(c4_amended env0 creqVal qreqVal (by decide) (by decide)).2.2.1,
   (c4_amended env0 creqVal qreqVal (by decide) (by decide)).2.2.2.1⟩

theorem b64_replicate (n : Nat) (c : Char) :
    base64DecodedLength (String.mk (List.replicate n c)) = n / 4 * 3 := by
  show (List.replicate n c).length / 4 * 3 = n / 4 * 3
  rw [List.length_replicate]

/-- An unpadded base64 payload of 14 MiB of text, which decodes to
10.5 MiB of bytes — above the 10 MiB limit the claim asserts. -/
def bigFileData : String := String.mk (List.replicate 14680064 'A')

theorem bigFileData_ne : bigFileData ≠ "" := by
  intro h
  have hd : List.replicate 14680064 'A' = ([] : List Char) := congrArg String.data h
  have h0 : (14680064 : Nat) = 0 := (List.replicate_eq_nil_iff 'A').mp hd
  exact absurd h0 (by decide)

/-- A JSON submission carrying the oversized base64 payload under an
allow-listed pdf name. -/
def mreqBig : MultipartReq :=
  { name := some "John", email := some "a@b.co", phone := none, city := none,
    address := none, propertyType := none, projectType := none, numWindows := none,
    budget := none, comments := none, contactMethod := none,
    windowType := FormValue.absent, glazing := FormValue.absent,
    fileData := some bigFileData, fileName := some "site-photo.pdf", fileType := none }

/-- C5 counterexample: on the inline-base64 route a payload decoding to
more than 10 MiB is not rejected at all — the handler writes it to the
managed upload directory and the submission succeeds, where the claim
demands a FileRejected error before any write. -/
theorem c5_counterexample :
    10 * 1024 * 1024 < base64DecodedLength bigFileData ∧
    (submitMultipart env0 mreqBig).1
        = Response.okJson "Thank you for your request. We will get back to you shortly!" ∧
    Event.fileWrite "uploads/file-1700000000000-123456789.pdf"
        ∈ (submitMultipart env0 mreqBig).2 := by
  have hbig : truthy (some bigFileData) = true := by
    unfold truthy
    exact if_neg bigFileData_ne
  have hlen : 10 * 1024 * 1024 < base64DecodedLength bigFileData := by
    have hb : base64DecodedLength bigFileData
        = base64DecodedLength (String.mk (List.replicate 14680064 'A')) := rfl
    rw [hb, b64_replicate]
    norm_num
  have hred : submitMultipart env0 mreqBig
      = ((.okJson "Thank you for your request. We will get back to you shortly!"),
        [Event.fileWrite "uploads/file-1700000000000-123456789.pdf",
         Event.sendAttempt false,
         Event.unlink "uploads/file-1700000000000-123456789.pdf"]) := by
    dsimp only [submitMultipart, mreqBig]
    rw [hbig]
    decide
  rw [hred]
  exact ⟨hlen, rfl, by decide⟩

/-- C5 as amended: the extension allow-list is enforced on every route
before anything is persisted, and the 10 MiB cap and the 5-file cap are
enforced on the multer routes (any violation aborts the request with an
empty trace: nothing stored, nothing sent); the inline-base64 route
checks only the extension and has no size check. -/
theorem c5_amended :
    (∀ env (req : ContactReq) f, req.file = some f →
        fileFilterOk f.originalname = false →
        submitContactForm env req
          = (Response.serverError
              "Invalid file type. Only JPG, PNG, PDF, and DOC files are allowed.", [])) ∧
    (∀ env (req : ContactReq) f, req.file = some f →
        fileFilterOk f.originalname = true → maxFileSize < f.size →
        submitContactForm env req = (Response.serverError "File too large", [])) ∧
    (∀ env (qreq : QuoteReq), 5 < qreq.files.length →
        submitQuoteForm env qreq = (Response.serverError "Unexpected field", [])) ∧
    (∀ env (qreq : QuoteReq), qreq.files.length ≤ 5 →
        (∃ f ∈ qreq.files, fileFilterOk f.originalname = false) →
        submitQuoteForm env qreq
          = (Response.serverError
              "Invalid file type. Only JPG, PNG, PDF, and DOC files are allowed.", [])) ∧
    (∀ env (qreq : QuoteReq), qreq.files.length ≤ 5 →
        (∀ f ∈ qreq.files, fileFilterOk f.originalname = true) →
        (∃ f ∈ qreq.files, maxFileSize < f.size) →
        submitQuoteForm env qreq = (Response.serverError "File too large", [])) ∧
    (∀ env (mreq : MultipartReq), truthy mreq.name = true → truthy mreq.email = true →
        validateEmail (jsGet mreq.email) = true →
        truthy mreq.fileData = true → truthy mreq.fileName = true →
        allowedTypes.contains (lowerStr (extname (jsGet mreq.fileName))) = false →
        submitMultipart env mreq
          = (Response.badRequest
              "Invalid file type. Only JPG, PNG, PDF, and DOC files are allowed.", [])) := by
  refine ⟨?_, ?_, ?_, ?_, ?_, ?_⟩
  · intro env req f hf hff
    simp [submitContactForm, hf, hff]
  · intro env req f hf hff hsz
    simp [submitContactForm, hf, hff, hsz]
  · intro env qreq hlen
    simp [submitQuoteForm, hlen]
  · intro env qreq hlen hex
    obtain ⟨f, hfmem, hff⟩ := hex
    have hany : qreq.files.any (fun f => !fileFilterOk f.originalname) = true :=
      List.any_eq_true.mpr ⟨f, hfmem, by simp [hff]⟩
    have hnl : ¬(5 < qreq.files.length) := Nat.not_lt.mpr hlen
    simp [submitQuoteForm, hnl, hany]
  · intro env qreq hlen hall hex
    obtain ⟨f, hfmem, hsz⟩ := hex
    have hnl : ¬(5 < qreq.files.length) := Nat.not_lt.mpr hlen
    have hanyf : qreq.files.any (fun f => !fileFilterOk f.originalname) = false := by
      rw [Bool.eq_false_iff]
      intro hc
      obtain ⟨g, hg, hb⟩ := List.any_eq_true.mp hc
      rw [hall g hg] at hb
      simp at hb
    have hanys : qreq.files.any (fun f => decide (maxFileSize < f.size)) = true :=
      List.any_eq_true.mpr ⟨f, hfmem, decide_eq_true hsz⟩
    simp [submitQuoteForm, hnl, hanyf, hanys]
  · intro env mreq h1 h2 h3 h4 h5 h6
    have h6m : lowerStr (extname (jsGet mreq.fileName)) ∉ allowedTypes := by
      simpa using h6
    simp [submitMultipart, h1, h2, h3, h4, h5, h6m]

/-- A contact request whose upload has a disallowed executable extension. -/
def reqExe : ContactReq :=
  { Name := some "Ann", Email := some "a@b.co", Subject := none, Message := none,
    file := some { originalname := "payload.exe", size := 64 } }

/-- A quote request carrying one allow-listed pdf upload one byte over
the 10 MiB limit. -/
def qreqBigFile : QuoteReq :=
  { name := some "Bob", email := some "a@b.co", phone := some "12345678",
    city := none, address := none, propertyType := none, projectType := none,
    serviceType := none, windowsType := none, doorsType := none,
    colorPreference := none, numWindows := none, estimatedBudget := none,
    contactMethod := none, bestTime := none, additionalComments := none,
    files := [{ originalname := "big.pdf", size := 10485761 }] }

/-- Witness for C5 as amended: the executable upload on the contact route
and the oversize pdf on the quote route are each rejected with an empty
trace, before anything reaches the upload directory. -/
theorem c5_amended_witness :
    submitContactForm env0 reqExe
      = (Response.serverError
          "Invalid file type. Only JPG, PNG, PDF, and DOC files are allowed.", []) ∧
    submitQuoteForm env0 qreqBigFile = (Response.serverError "File too large", []) :=
  ⟨c5_amended.1 env0 reqExe { originalname := "payload.exe", size := 64 } rfl (by decide),
   c5_amended.2.2.2.2.1 env0 qreqBigFile (by decide) (by decide)
     ⟨{ originalname := "big.pdf", size := 10485761 }, by decide, by decide⟩⟩
